import Mathlib

/-!
Shallow embedding of the `AsynchTasks` task scheduler (AsyncTasks.h, mature
revision): the task data model, the flagged-property setters, the
`TaskManager` operations (`createTask`, `addTask`, `update`, tunable
setters), the Worker execution protocol (`doWork` body), and the organiser
harvest/assign steps.  Exceptions thrown by user computations/callbacks are
modelled with `Except` carrying a `CppFailure` describing the three catch
clauses of the source.  Machine-width arithmetic: `taskID` is
`unsigned long long` in the source, so the id stamp is taken modulo `2 ^ 64`.
-/

namespace AsynchTasks

/-- Status enumeration `ETaskStatus` of the source (values Error = -1,
Setup, Pending, In_Progress, Callback_On_Update, Completed). -/
inductive ETaskStatus : Type
  | Error
  | Setup
  | Pending
  | In_Progress
  | Callback_On_Update
  | Completed
deriving DecidableEq, Repr

/-- `taskID` is `unsigned long long int` in the source; modelled as `Nat`
with arithmetic taken mod `2 ^ 64` where the source increments it. -/
abbrev taskID := Nat

/-- Modulus of the 64-bit unsigned `taskID`: the literal value of 2 ^ 64. -/
abbrev UINT64_MOD : Nat := 18446744073709551616

/-- `ETaskPriority` is an `unsigned int` enum in the source. -/
abbrev ETaskPriority := Nat

def Low_Priority : ETaskPriority := 0x00000000

def Medium_Priority : ETaskPriority := 0x7FFFFFFF

def High_Priority : ETaskPriority := 0xFFFFFFFF

/-- Failure raised by a user computation or callback, matching the three
catch clauses of the source: `std::exception` (message `what()`), a thrown
`std::string`, and the catch-all `...`. -/
inductive CppFailure : Type
  | exce (msg : String)
  | strE (msg : String)
  | unknownE

/-- Message the catch-all clause stores on the task. -/
def unknownErrorText : String :=
  "An unknown error occurred while executing the Task. Error thrown did not provide any information as to the cause\n"

/-- The error text each catch clause stores into `mErrorMsg`. -/
def CppFailure.storedMessage : CppFailure → String
  | .exce m => m
  | .strE m => m
  | .unknownE => unknownErrorText

/-- `Asynch_Task_Job<T>` together with its `Asynch_Task_Base` fields.
`mResult` is the owned `T*` (none = nullptr); `mProcess`/`mCallback` are the
`std::function` members (none = empty function); a call of either may raise
a `CppFailure`. -/
structure Asynch_Task_Job (T : Type) where
  mID : taskID
  mStatus : ETaskStatus
  mPriority : ETaskPriority
  mCallbackOnUpdate : Bool
  mLockValues : Bool
  mErrorMsg : String
  mResult : Option T
  mProcess : Option (Unit → Except CppFailure T)
  mCallback : Option (T → Except CppFailure Unit)

/-- `ReadWriteFlaggedProperty::operator=` for `priority`: assigns only while
the lock flag `mLockValues` is down, silently ignored otherwise. -/
def setPriority (t : Asynch_Task_Job T) (pVal : ETaskPriority) : Asynch_Task_Job T :=
  if t.mLockValues then t else { t with mPriority := pVal }

/-- `ReadWriteFlaggedProperty::operator=` for `callbackOnUpdate`. -/
def setCallbackOnUpdate (t : Asynch_Task_Job T) (pVal : Bool) : Asynch_Task_Job T :=
  if t.mLockValues then t else { t with mCallbackOnUpdate := pVal }

/-- `ReadWriteFlaggedProperty::operator=` for `process`. -/
def setProcess (t : Asynch_Task_Job T) (pVal : Unit → Except CppFailure T) :
    Asynch_Task_Job T :=
  if t.mLockValues then t else { t with mProcess := some pVal }

/-- `ReadWriteFlaggedProperty::operator=` for `callback`. -/
def setCallback (t : Asynch_Task_Job T) (pVal : T → Except CppFailure Unit) :
    Asynch_Task_Job T :=
  if t.mLockValues then t else { t with mCallback := some pVal }

/-- `Asynch_Task_Job<T>::completeProcess`: `mResult = new T(mProcess())`.
Calling an empty `std::function` raises `std::bad_function_call`, an
`std::exception`. -/
def completeProcess (t : Asynch_Task_Job T) : Except CppFailure (Asynch_Task_Job T) :=
  match t.mProcess with
  | some p =>
    match p () with
    | .ok r => .ok { t with mResult := some r }
    | .error e => .error e
  | none => .error (.exce "bad function call")

/-- `Asynch_Task_Job<T>::completeCallback`: `if (mCallback) mCallback(*mResult)`.
The scheduler only invokes this after `completeProcess` has stored `mResult`;
the source dereferences `mResult` unconditionally there. -/
def completeCallback (t : Asynch_Task_Job T) : Except CppFailure Unit :=
  match t.mCallback, t.mResult with
  | some cb, some r => cb r
  | some _, none => .ok ()
  | none, _ => .ok ()

/-- `Asynch_Task_Job<T>::cleanupData`: `delete mResult; mResult = nullptr`. -/
def cleanupData (t : Asynch_Task_Job T) : Asynch_Task_Job T :=
  { t with mResult := none }

/-- The catch clauses shared by `Worker::doWork` and `TaskManager::update`:
store the error text, set status `Error`, drop the lock flag. -/
def failTask (t : Asynch_Task_Job T) (e : CppFailure) : Asynch_Task_Job T :=
  { t with mErrorMsg := e.storedMessage, mStatus := ETaskStatus.Error,
           mLockValues := false }

/-- The `TaskManager` singleton's data: worker tunables, the id counter, the
per-update callback cap, the pending queue `mUncompletedTasks` and the
deferred-callback vector `mToCallOnUpdate`. -/
structure TaskManager (T : Type) where
  mWorkerCount : Nat
  mWorkerInactiveTimeout : Nat
  mWorkerSleepLength : Nat
  mNextID : taskID
  mMaxCallbacksOnUpdate : Nat
  mUncompletedTasks : List (Asynch_Task_Job T)
  mToCallOnUpdate : List (Asynch_Task_Job T)

/-- The `TaskManager` constructor: timeout 2000 ms, sleep 100 ms, max 10
callbacks per update, next id 0, empty task vectors. -/
def TaskManager.init (T : Type) (pWorkers : Nat) : TaskManager T :=
  { mWorkerCount := pWorkers
    mWorkerInactiveTimeout := 2000
    mWorkerSleepLength := 100
    mNextID := 0
    mMaxCallbacksOnUpdate := 10
    mUncompletedTasks := []
    mToCallOnUpdate := [] }

/-- Comparator of the `addTask` sort: `pFirst->mPriority > pSecond->mPriority`
keeps the pending queue in descending priority order. -/
def pendingBefore (a b : Asynch_Task_Job T) : Prop :=
  b.mPriority ≤ a.mPriority

/-- Comparator of the `organiseTasks` sort: `pFirst->mPriority < pSecond->mPriority`
keeps the deferred-callback vector in ascending priority order. -/
def updateBefore (a b : Asynch_Task_Job T) : Prop :=
  a.mPriority ≤ b.mPriority

instance : DecidableRel (pendingBefore (T := T)) := fun a b =>
  inferInstanceAs (Decidable (b.mPriority ≤ a.mPriority))

instance : DecidableRel (updateBefore (T := T)) := fun a b =>
  inferInstanceAs (Decidable (a.mPriority ≤ b.mPriority))

instance : IsTotal (Asynch_Task_Job T) pendingBefore :=
  ⟨fun a b => Nat.le_total b.mPriority a.mPriority⟩

instance : IsTrans (Asynch_Task_Job T) pendingBefore :=
  ⟨fun _ _ _ hab hbc => Nat.le_trans hbc hab⟩

instance : IsTotal (Asynch_Task_Job T) updateBefore :=
  ⟨fun a b => Nat.le_total a.mPriority b.mPriority⟩

instance : IsTrans (Asynch_Task_Job T) updateBefore :=
  ⟨fun _ _ _ hab hbc => Nat.le_trans hab hbc⟩

/-- Result of `TaskManager::addTask`: the returned flag, the task as left by
the call (the handle is shared, so the caller observes the mutations), and
the manager state. -/
structure AddTaskResult (T : Type) where
  returned : Bool
  pTask : Asynch_Task_Job T
  mgr : TaskManager T

/-- `TaskManager::addTask` past the null check: reject unless status is
`Setup` or `Completed`; reject if `mProcess` is unset; otherwise raise the
lock flag, set status `Pending`, push onto `mUncompletedTasks` and re-sort
the whole queue by descending priority. -/
def addTask (m : TaskManager T) (pTask : Asynch_Task_Job T) : AddTaskResult T :=
  if pTask.mStatus = ETaskStatus.Setup ∨ pTask.mStatus = ETaskStatus.Completed then
    if pTask.mProcess.isNone then ⟨false, pTask, m⟩
    else
      let t := { pTask with mLockValues := true, mStatus := ETaskStatus.Pending }
      ⟨true, t,
        { m with mUncompletedTasks :=
            List.insertionSort pendingBefore (m.mUncompletedTasks ++ [t]) }⟩
  else ⟨false, pTask, m⟩

/-- `TaskManager::addTask` including the initial null-handle check
(`if (!pTask) return false;`). -/
def addTaskHandle (m : TaskManager T) (h : Option (Asynch_Task_Job T)) :
    Bool × Option (Asynch_Task_Job T) × TaskManager T :=
  match h with
  | none => (false, none, m)
  | some t =>
    let r := addTask m t
    (r.returned, some r.pTask, r.mgr)

/-- `TaskManager::createTask<T>`: allocate a fresh `Asynch_Task_Job` (the
`Asynch_Task_Base` constructor zero-initialises every field, status `Setup`,
priority `Low_Priority`, lock flag down, empty error string) and stamp it
with `++mInstance->mNextID`. -/
def createTask (m : TaskManager T) : Asynch_Task_Job T × TaskManager T :=
  let newID := (m.mNextID + 1) % UINT64_MOD
  ({ mID := newID
     mStatus := ETaskStatus.Setup
     mPriority := Low_Priority
     mCallbackOnUpdate := false
     mLockValues := false
     mErrorMsg := ""
     mResult := none
     mProcess := none
     mCallback := none },
   { m with mNextID := newID })

/-- `TaskManager::setWorkerTimeout`. -/
def setWorkerTimeout (m : TaskManager T) (pTime : Nat) : TaskManager T :=
  { m with mWorkerInactiveTimeout := pTime }

/-- `TaskManager::setWorkerSleep`. -/
def setWorkerSleep (m : TaskManager T) (pTime : Nat) : TaskManager T :=
  { m with mWorkerSleepLength := pTime }

/-- `TaskManager::setMaxCallbacks`. -/
def setMaxCallbacks (m : TaskManager T) (pMax : Nat) : TaskManager T :=
  { m with mMaxCallbacksOnUpdate := pMax }

/-- First statement of the `Worker::doWork` try block:
`task->mStatus = ETaskStatus::In_Progress`. -/
def doWorkEntry (t : Asynch_Task_Job T) : Asynch_Task_Job T :=
  { t with mStatus := ETaskStatus.In_Progress }

/-- Remainder of the `Worker::doWork` try/catch on the task (already marked
`In_Progress`): run `completeProcess`; if `mCallbackOnUpdate` is clear, run
`completeCallback`, mark `Completed`, drop the lock flag and `cleanupData`;
otherwise mark `Callback_On_Update` (result kept, lock kept).  Any failure
is caught: error text stored, status `Error`, lock flag dropped — and no
`cleanupData` on this path. -/
def doWorkTry (t : Asynch_Task_Job T) : Asynch_Task_Job T :=
  match completeProcess t with
  | .error e => failTask t e
  | .ok t2 =>
    if !t2.mCallbackOnUpdate then
      match completeCallback t2 with
      | .ok _ =>
        cleanupData { t2 with mStatus := ETaskStatus.Completed, mLockValues := false }
      | .error e => failTask t2 e
    else { t2 with mStatus := ETaskStatus.Callback_On_Update }

/-- One full execution of an assigned task by `Worker::doWork`. -/
def doWorkStep (t : Asynch_Task_Job T) : Asynch_Task_Job T :=
  doWorkTry (doWorkEntry t)

/-- One pass of the `Worker::doWork` loop over the worker's slot: a missing
task or a task whose status is not `Pending` is left alone (the idle branch);
a `Pending` task is executed. -/
def workerRound (slot : Option (Asynch_Task_Job T)) : Option (Asynch_Task_Job T) :=
  match slot with
  | none => none
  | some t =>
    if t.mStatus = ETaskStatus.Pending then some (doWorkStep t) else some t

/-- `organiseTasks` harvesting a worker task whose status is
`Callback_On_Update`: push onto `mToCallOnUpdate` and re-sort that vector
ascending by priority. -/
def organiserHarvest (m : TaskManager T) (t : Asynch_Task_Job T) : TaskManager T :=
  { m with mToCallOnUpdate :=
      List.insertionSort updateBefore (m.mToCallOnUpdate ++ [t]) }

/-- `organiseTasks` handing work out: an idle worker receives
`mUncompletedTasks[0]`, which is erased from the queue. -/
def organiserAssign (m : TaskManager T) : TaskManager T × Option (Asynch_Task_Job T) :=
  match m.mUncompletedTasks with
  | [] => (m, none)
  | t :: rest => ({ m with mUncompletedTasks := rest }, some t)

/-- Body of the `TaskManager::update` loop on one task: try
`completeCallback`, then `Completed` + unlock on success, or the catch
clauses (`failTask`) on failure; `cleanupData` runs on both paths. -/
def pollTask (t : Asynch_Task_Job T) : Asynch_Task_Job T :=
  match completeCallback t with
  | .ok _ =>
    cleanupData { t with mStatus := ETaskStatus.Completed, mLockValues := false }
  | .error e => cleanupData (failTask t e)

/-- The `TaskManager::update` loop: `i` starts at the last index and `count`
at 0; while `i ≥ 0` and `count < mMaxCallbacksOnUpdate` the task at index `i`
is processed and erased.  Modelled on the reversed vector: consume up to the
cap from the front, returning (untouched remainder, processed tasks in
processing order). -/
def updateDrain : Nat → List (Asynch_Task_Job T) →
    List (Asynch_Task_Job T) × List (Asynch_Task_Job T)
  | 0, l => (l, [])
  | _ + 1, [] => ([], [])
  | k + 1, t :: rest =>
    let r := updateDrain k rest
    (r.1, pollTask t :: r.2)

/-- `TaskManager::update`: drain up to `mMaxCallbacksOnUpdate` tasks from the
back of `mToCallOnUpdate`; returns the new manager state and the processed
tasks in processing order. -/
def update (m : TaskManager T) : TaskManager T × List (Asynch_Task_Job T) :=
  ({ m with mToCallOnUpdate :=
      (updateDrain m.mMaxCallbacksOnUpdate m.mToCallOnUpdate.reverse).1.reverse },
   (updateDrain m.mMaxCallbacksOnUpdate m.mToCallOnUpdate.reverse).2)

/-- The worker's `mInactiveTimeout` is a `ReadOnlyProperty<unsigned int>`,
which stores a `const T&`; the constructor binds it to
`mInstance->mWorkerInactiveTimeout`, so every read retrieves the manager's
current field value, not a construction-time copy. -/
def Worker.readInactiveTimeout (m : TaskManager T) : Nat :=
  m.mWorkerInactiveTimeout

/-- The worker's `mSleepLength` likewise reads through a `const T&` bound to
`mInstance->mWorkerSleepLength`. -/
def Worker.readSleepLength (m : TaskManager T) : Nat :=
  m.mWorkerSleepLength

/-- A concrete manager state for witnesses: a freshly created manager with
five workers. -/
def mgr0 : TaskManager Nat := TaskManager.init Nat 5

/-- A concrete task with a given status, a process returning 7 and no
callback, used by witnesses. -/
def sampleTask (st : ETaskStatus) : Asynch_Task_Job Nat :=
  { mID := 1
    mStatus := st
    mPriority := Low_Priority
    mCallbackOnUpdate := false
    mLockValues := false
    mErrorMsg := ""
    mResult := none
    mProcess := some (fun _ => Except.ok 7)
    mCallback := none }

/-- A concrete task in `Setup` whose process was never set. -/
def noProcessTask : Asynch_Task_Job Nat :=
  { mID := 2
    mStatus := ETaskStatus.Setup
    mPriority := Low_Priority
    mCallbackOnUpdate := false
    mLockValues := false
    mErrorMsg := ""
    mResult := none
    mProcess := none
    mCallback := none }

/-- A concrete task in the `Error` state with a stored error message and a
process set. -/
def errorTask : Asynch_Task_Job Nat :=
  { mID := 3
    mStatus := ETaskStatus.Error
    mPriority := Low_Priority
    mCallbackOnUpdate := false
    mLockValues := false
    mErrorMsg := "boom"
    mResult := none
    mProcess := some (fun _ => Except.ok 7)
    mCallback := none }

/-- C2: `addTask` rejects a null handle, an unset process, or a status other
than `Setup`/`Completed`, returning `false` and mutating neither the task
(status, lock flag, every other field) nor the manager's queues. -/
theorem addTask_rejects_without_mutation (T : Type) :
    (∀ m : TaskManager T, addTaskHandle m none = (false, none, m)) ∧
    (∀ (m : TaskManager T) (t : Asynch_Task_Job T), t.mProcess = none →
      addTask m t = ⟨false, t, m⟩) ∧
    (∀ (m : TaskManager T) (t : Asynch_Task_Job T),
      t.mStatus ≠ ETaskStatus.Setup → t.mStatus ≠ ETaskStatus.Completed →
      addTask m t = ⟨false, t, m⟩) := by
  refine ⟨fun m => rfl, fun m t hp => ?_, fun m t h1 h2 => ?_⟩
  · unfold addTask
    split
    · simp [hp]
    · rfl
  · unfold addTask
    split
    · next h => rcases h with h | h <;> [exact absurd h h1; exact absurd h h2]
    · rfl

/-- Witness for C2 at concrete inputs: a null handle, a `Setup` task with no
process, and a task in the `Error` state are all rejected unchanged. -/
theorem addTask_rejects_without_mutation_witness :
    addTaskHandle mgr0 none = (false, none, mgr0) ∧
    addTask mgr0 noProcessTask = ⟨false, noProcessTask, mgr0⟩ ∧
    addTask mgr0 errorTask = ⟨false, errorTask, mgr0⟩ :=
  ⟨(addTask_rejects_without_mutation Nat).1 mgr0,
   (addTask_rejects_without_mutation Nat).2.1 mgr0 noProcessTask rfl,
   (addTask_rejects_without_mutation Nat).2.2 mgr0 errorTask
     (by decide) (by decide)⟩

/-- C6: an accepted submission (status `Setup` or `Completed`, process set)
returns `true`, raises the lock flag (so the four flagged setters become
no-ops), sets status `Pending`, and the pending queue becomes the old queue
plus the task, re-sorted descending by priority. -/
theorem addTask_accepts_with_effects (T : Type) (m : TaskManager T)
    (t : Asynch_Task_Job T)
    (hst : t.mStatus = ETaskStatus.Setup ∨ t.mStatus = ETaskStatus.Completed)
    (hp : t.mProcess.isSome = true) :
    (addTask m t).returned = true ∧
    (addTask m t).pTask.mLockValues = true ∧
    (addTask m t).pTask.mStatus = ETaskStatus.Pending ∧
    (∀ p, setPriority (addTask m t).pTask p = (addTask m t).pTask) ∧
    (∀ b, setCallbackOnUpdate (addTask m t).pTask b = (addTask m t).pTask) ∧
    (∀ f, setProcess (addTask m t).pTask f = (addTask m t).pTask) ∧
    (∀ f, setCallback (addTask m t).pTask f = (addTask m t).pTask) ∧
    List.Perm (addTask m t).mgr.mUncompletedTasks
      (m.mUncompletedTasks ++ [(addTask m t).pTask]) ∧
    List.Sorted pendingBefore (addTask m t).mgr.mUncompletedTasks := by
  have hne : ¬ t.mProcess.isNone = true := by
    cases hpp : t.mProcess with
    | none => rw [hpp] at hp; cases hp
    | some p => simp [hpp]
  unfold addTask
  rw [if_pos hst, if_neg hne]
  refine ⟨rfl, rfl, rfl, fun p => rfl, fun b => rfl, fun f => rfl, fun f => rfl,
    List.perm_insertionSort _ _, List.sorted_insertionSort _ _⟩

/-- Witness for C6: submitting the concrete `Setup` sample task succeeds. -/
theorem addTask_accepts_with_effects_witness :
    (addTask mgr0 (sampleTask ETaskStatus.Setup)).returned = true :=
  (addTask_accepts_with_effects Nat mgr0 (sampleTask ETaskStatus.Setup)
    (Or.inl rfl) rfl).1

/-- C7 counterexample: the concrete task in the `Error` state (error message
"boom", process set) is rejected by `addTask` — the call returns `false`,
the status stays `Error` and the error message is not cleared, refuting the
claim that an `Error` task is resubmittable. -/
theorem error_resubmission_counterexample :
    (addTask mgr0 errorTask).returned = false ∧
    (addTask mgr0 errorTask).pTask.mStatus = ETaskStatus.Error ∧
    (addTask mgr0 errorTask).pTask.mErrorMsg = "boom" := by
  exact ⟨rfl, rfl, rfl⟩

/-- C7 amended: a task whose status is `Error` can NOT be resubmitted:
`addTask` returns `false` and mutates nothing, so in particular the stored
error message is not cleared (only `Setup` and `Completed` are accepted). -/
theorem addTask_rejects_error_state (T : Type) (m : TaskManager T)
    (t : Asynch_Task_Job T) (h : t.mStatus = ETaskStatus.Error) :
    addTask m t = ⟨false, t, m⟩ := by
  unfold addTask
  rw [if_neg]
  rintro (h1 | h1) <;> rw [h] at h1 <;> cases h1

/-- Witness for the amended C7 at the concrete `Error` task. -/
theorem addTask_rejects_error_state_witness :
    addTask mgr0 errorTask = ⟨false, errorTask, mgr0⟩ :=
  addTask_rejects_error_state Nat mgr0 errorTask rfl

/-- C5: after every accepted submission the pending queue is sorted in
descending priority order; the organiser dequeues the queue's front entry,
which under that order carries a maximal priority; and after every harvest
the deferred-callback vector is sorted in the opposite, ascending priority
order. -/
theorem queues_sorted_with_opposite_comparators (T : Type) :
    (∀ (m : TaskManager T) (t : Asynch_Task_Job T),
      (addTask m t).returned = true →
      List.Sorted pendingBefore (addTask m t).mgr.mUncompletedTasks) ∧
    (∀ (m : TaskManager T) (t : Asynch_Task_Job T),
      List.Sorted updateBefore (organiserHarvest m t).mToCallOnUpdate) ∧
    (∀ m : TaskManager T, (organiserAssign m).2 = m.mUncompletedTasks.head?) ∧
    (∀ (m : TaskManager T) (x : Asynch_Task_Job T),
      List.Sorted pendingBefore m.mUncompletedTasks →
      (organiserAssign m).2 = some x →
      ∀ u ∈ m.mUncompletedTasks, u.mPriority ≤ x.mPriority) := by
  refine ⟨fun m t hacc => ?_, fun m t => List.sorted_insertionSort _ _,
    fun m => ?_, fun m x hsort hx u hu => ?_⟩
  · unfold addTask at hacc ⊢
    by_cases h1 : t.mStatus = ETaskStatus.Setup ∨ t.mStatus = ETaskStatus.Completed
    · rw [if_pos h1] at hacc ⊢
      by_cases h2 : t.mProcess.isNone = true
      · rw [if_pos h2] at hacc; simp at hacc
      · rw [if_neg h2]; exact List.sorted_insertionSort _ _
    · rw [if_neg h1] at hacc; simp at hacc
  · unfold organiserAssign
    cases m.mUncompletedTasks <;> rfl
  · unfold organiserAssign at hx
    cases hq : m.mUncompletedTasks with
    | nil => rw [hq] at hx; cases hx
    | cons y rest =>
      rw [hq] at hx hsort hu
      simp only [List.head?] at hx
      cases hx
      rcases List.mem_cons.mp hu with h | h
      · exact Nat.le_of_eq (congrArg _ h)
      · exact (List.sorted_cons.mp hsort).1 u h

/-- Witness for C5: the concrete accepted submission leaves a sorted queue,
and the assignment of the resulting singleton queue hands out its front. -/
theorem queues_sorted_with_opposite_comparators_witness :
    List.Sorted pendingBefore
      (addTask mgr0 (sampleTask ETaskStatus.Setup)).mgr.mUncompletedTasks ∧
    (organiserAssign mgr0).2 = mgr0.mUncompletedTasks.head? ∧
    List.Sorted updateBefore
      (organiserHarvest mgr0 (sampleTask ETaskStatus.Callback_On_Update)).mToCallOnUpdate :=
  ⟨(queues_sorted_with_opposite_comparators Nat).1 mgr0
      (sampleTask ETaskStatus.Setup) (by decide),
   (queues_sorted_with_opposite_comparators Nat).2.2.1 mgr0,
   (queues_sorted_with_opposite_comparators Nat).2.1 mgr0
      (sampleTask ETaskStatus.Callback_On_Update)⟩

/-- The status transition graph of the specification: submit edges
`Setup/Completed → Pending`, the worker edges `Pending → In_Progress` and
`In_Progress → Completed/Error/Callback_On_Update`, and the deferred-poll
edges `Callback_On_Update → Completed/Error`. -/
def transitionAllowed : ETaskStatus → ETaskStatus → Bool
  | .Setup, .Pending => true
  | .Completed, .Pending => true
  | .Pending, .In_Progress => true
  | .In_Progress, .Completed => true
  | .In_Progress, .Error => true
  | .In_Progress, .Callback_On_Update => true
  | .Callback_On_Update, .Completed => true
  | .Callback_On_Update, .Error => true
  | _, _ => false

/-- A successful `completeProcess` only stores a result: every other field,
in particular the status and the callback-on-update flag, is untouched. -/
theorem completeProcess_ok_shape (t t2 : Asynch_Task_Job T)
    (h : completeProcess t = .ok t2) :
    ∃ r, t2 = { t with mResult := some r } := by
  unfold completeProcess at h
  cases hp : t.mProcess with
  | none => rw [hp] at h; cases h
  | some p =>
    rw [hp] at h
    dsimp only at h
    cases hr : p () with
    | ok r =>
      rw [hr] at h
      cases h
      exact ⟨r, rfl⟩
    | error e => rw [hr] at h; cases h

/-- When the process throws, `doWorkTry` runs the catch clauses. -/
theorem doWorkTry_process_error (t : Asynch_Task_Job T) (e : CppFailure)
    (h : completeProcess t = .error e) : doWorkTry t = failTask t e := by
  unfold doWorkTry
  rw [h]

/-- When the process succeeds and callback-on-update is set, `doWorkTry`
parks the task for the deferred path. -/
theorem doWorkTry_defer (t t2 : Asynch_Task_Job T)
    (h : completeProcess t = .ok t2) (hb : t2.mCallbackOnUpdate = true) :
    doWorkTry t = { t2 with mStatus := ETaskStatus.Callback_On_Update } := by
  unfold doWorkTry
  rw [h]
  simp [hb]

/-- When the process and the immediate callback both succeed, `doWorkTry`
completes, unlocks and cleans up the task. -/
theorem doWorkTry_immediate_ok (t t2 : Asynch_Task_Job T)
    (h : completeProcess t = .ok t2) (hb : t2.mCallbackOnUpdate = false)
    (hc : completeCallback t2 = Except.ok ()) :
    doWorkTry t =
      cleanupData { t2 with mStatus := ETaskStatus.Completed,
                            mLockValues := false } := by
  unfold doWorkTry
  rw [h]
  simp [hb, hc]

/-- When the immediate callback throws, `doWorkTry` runs the catch clauses
on the post-process task. -/
theorem doWorkTry_immediate_error (t t2 : Asynch_Task_Job T) (e : CppFailure)
    (h : completeProcess t = .ok t2) (hb : t2.mCallbackOnUpdate = false)
    (hc : completeCallback t2 = .error e) :
    doWorkTry t = failTask t2 e := by
  unfold doWorkTry
  rw [h]
  simp [hb, hc]

/-- The worker's try/catch leaves the task in one of the three per-run
outcome states. -/
theorem doWorkTry_status (t : Asynch_Task_Job T) :
    (doWorkTry t).mStatus = ETaskStatus.Completed ∨
    (doWorkTry t).mStatus = ETaskStatus.Error ∨
    (doWorkTry t).mStatus = ETaskStatus.Callback_On_Update := by
  cases hp : completeProcess t with
  | error e => rw [doWorkTry_process_error t e hp]; exact Or.inr (Or.inl rfl)
  | ok t2 =>
    cases hb : t2.mCallbackOnUpdate with
    | true => rw [doWorkTry_defer t t2 hp hb]; exact Or.inr (Or.inr rfl)
    | false =>
      cases hc : completeCallback t2 with
      | ok u =>
        cases u
        rw [doWorkTry_immediate_ok t t2 hp hb hc]
        exact Or.inl rfl
      | error e =>
        rw [doWorkTry_immediate_error t t2 e hp hb hc]
        exact Or.inr (Or.inl rfl)

/-- The update-loop body on a successful callback: mark `Completed`, unlock,
release the result. -/
theorem pollTask_cb_ok (t : Asynch_Task_Job T)
    (hc : completeCallback t = Except.ok ()) :
    pollTask t =
      cleanupData { t with mStatus := ETaskStatus.Completed,
                           mLockValues := false } := by
  unfold pollTask
  rw [hc]

/-- The update-loop body on a throwing callback: catch clauses, then the
unconditional `cleanupData`. -/
theorem pollTask_cb_error (t : Asynch_Task_Job T) (e : CppFailure)
    (hc : completeCallback t = .error e) :
    pollTask t = cleanupData (failTask t e) := by
  unfold pollTask
  rw [hc]

/-- The update-loop body leaves a drained task `Completed` or `Error`. -/
theorem pollTask_status (t : Asynch_Task_Job T) :
    (pollTask t).mStatus = ETaskStatus.Completed ∨
    (pollTask t).mStatus = ETaskStatus.Error := by
  cases hc : completeCallback t with
  | ok u => cases u; rw [pollTask_cb_ok t hc]; exact Or.inl rfl
  | error e => rw [pollTask_cb_error t e hc]; exact Or.inr rfl

/-- C1: every status change any operation produces follows the transition
graph.  An accepted `addTask` moves `Setup`/`Completed` to `Pending` along an
allowed edge and a rejected one changes nothing; the worker executes only
`Pending` tasks, first along `Pending → In_Progress` and then along an
allowed edge out of `In_Progress`; the update loop moves a harvested
`Callback_On_Update` task along an allowed edge; the organiser's harvest and
assignment move tasks between collections without inventing or altering any
task; the flagged setters and the tunable setters touch no status. -/
theorem status_follows_transition_graph (T : Type) :
    (∀ (m : TaskManager T) (t : Asynch_Task_Job T),
      (addTask m t).returned = true →
      transitionAllowed t.mStatus (addTask m t).pTask.mStatus = true ∧
      (addTask m t).pTask.mStatus = ETaskStatus.Pending) ∧
    (∀ (m : TaskManager T) (t : Asynch_Task_Job T),
      (addTask m t).returned = false →
      (addTask m t).pTask = t ∧ (addTask m t).mgr = m) ∧
    (∀ t : Asynch_Task_Job T, t.mStatus = ETaskStatus.Pending →
      transitionAllowed t.mStatus (doWorkEntry t).mStatus = true ∧
      transitionAllowed (doWorkEntry t).mStatus (doWorkStep t).mStatus = true) ∧
    (∀ t : Asynch_Task_Job T, t.mStatus ≠ ETaskStatus.Pending →
      workerRound (some t) = some t) ∧
    (∀ t : Asynch_Task_Job T, t.mStatus = ETaskStatus.Callback_On_Update →
      transitionAllowed t.mStatus (pollTask t).mStatus = true) ∧
    (∀ (m : TaskManager T) (t u : Asynch_Task_Job T),
      u ∈ (organiserHarvest m t).mToCallOnUpdate →
      u ∈ m.mToCallOnUpdate ∨ u = t) ∧
    (∀ (m : TaskManager T) (t : Asynch_Task_Job T),
      (organiserAssign m).2 = some t → t ∈ m.mUncompletedTasks) ∧
    (∀ (t : Asynch_Task_Job T) p, (setPriority t p).mStatus = t.mStatus) ∧
    (∀ (t : Asynch_Task_Job T) b, (setCallbackOnUpdate t b).mStatus = t.mStatus) ∧
    (∀ (t : Asynch_Task_Job T) f, (setProcess t f).mStatus = t.mStatus) ∧
    (∀ (t : Asynch_Task_Job T) f, (setCallback t f).mStatus = t.mStatus) ∧
    (∀ (m : TaskManager T) v,
      (setWorkerTimeout m v).mUncompletedTasks = m.mUncompletedTasks ∧
      (setWorkerTimeout m v).mToCallOnUpdate = m.mToCallOnUpdate ∧
      (setWorkerSleep m v).mUncompletedTasks = m.mUncompletedTasks ∧
      (setWorkerSleep m v).mToCallOnUpdate = m.mToCallOnUpdate ∧
      (setMaxCallbacks m v).mUncompletedTasks = m.mUncompletedTasks ∧
      (setMaxCallbacks m v).mToCallOnUpdate = m.mToCallOnUpdate) := by
  refine ⟨fun m t hacc => ?_, fun m t hrej => ?_, fun t hpend => ?_,
    fun t hnp => ?_, fun t hcbu => ?_, fun m t u hu => ?_, fun m t ht => ?_,
    fun t p => ?_, fun t b => ?_, fun t f => ?_, fun t f => ?_,
    fun m v => ⟨rfl, rfl, rfl, rfl, rfl, rfl⟩⟩
  · unfold addTask at hacc ⊢
    by_cases h1 : t.mStatus = ETaskStatus.Setup ∨ t.mStatus = ETaskStatus.Completed
    · rw [if_pos h1] at hacc ⊢
      by_cases h2 : t.mProcess.isNone = true
      · rw [if_pos h2] at hacc; simp at hacc
      · rw [if_neg h2]
        rcases h1 with h1 | h1 <;> rw [h1] <;> exact ⟨rfl, rfl⟩
    · rw [if_neg h1] at hacc; simp at hacc
  · unfold addTask at hrej ⊢
    by_cases h1 : t.mStatus = ETaskStatus.Setup ∨ t.mStatus = ETaskStatus.Completed
    · rw [if_pos h1] at hrej ⊢
      by_cases h2 : t.mProcess.isNone = true
      · rw [if_pos h2]; exact ⟨rfl, rfl⟩
      · rw [if_neg h2] at hrej; simp at hrej
    · rw [if_neg h1]; exact ⟨rfl, rfl⟩
  · refine ⟨by rw [hpend]; rfl, ?_⟩
    have h3 : doWorkStep t = doWorkTry (doWorkEntry t) := rfl
    rcases doWorkTry_status (doWorkEntry t) with h | h | h <;>
      rw [h3, h] <;> rfl
  · show (if t.mStatus = ETaskStatus.Pending then some (doWorkStep t)
      else some t) = some t
    rw [if_neg hnp]
  · rcases pollTask_status t with h | h <;> rw [hcbu, h] <;> rfl
  · unfold organiserHarvest at hu
    have hperm := List.perm_insertionSort (updateBefore (T := T))
      (m.mToCallOnUpdate ++ [t])
    have := hperm.mem_iff.mp hu
    rcases List.mem_append.mp this with h | h
    · exact Or.inl h
    · exact Or.inr (List.mem_singleton.mp h)
  · unfold organiserAssign at ht
    cases hq : m.mUncompletedTasks with
    | nil => rw [hq] at ht; cases ht
    | cons y rest =>
      rw [hq] at ht
      dsimp only at ht
      injection ht with h2
      exact List.mem_cons.mpr (Or.inl h2.symm)
  · unfold setPriority; split <;> rfl
  · unfold setCallbackOnUpdate; split <;> rfl
  · unfold setProcess; split <;> rfl
  · unfold setCallback; split <;> rfl

/-- Witness for C1: concrete instances of the submit, worker, poll and
idle-guard conjuncts. -/
theorem status_follows_transition_graph_witness :
    transitionAllowed (sampleTask ETaskStatus.Setup).mStatus
      (addTask mgr0 (sampleTask ETaskStatus.Setup)).pTask.mStatus = true ∧
    transitionAllowed (doWorkEntry (sampleTask ETaskStatus.Pending)).mStatus
      (doWorkStep (sampleTask ETaskStatus.Pending)).mStatus = true ∧
    transitionAllowed (sampleTask ETaskStatus.Callback_On_Update).mStatus
      (pollTask (sampleTask ETaskStatus.Callback_On_Update)).mStatus = true ∧
    workerRound (some (sampleTask ETaskStatus.Completed)) =
      some (sampleTask ETaskStatus.Completed) :=
  ⟨((status_follows_transition_graph Nat).1 mgr0 (sampleTask ETaskStatus.Setup)
      (by decide)).1,
   ((status_follows_transition_graph Nat).2.2.1 (sampleTask ETaskStatus.Pending)
      rfl).2,
   (status_follows_transition_graph Nat).2.2.2.2.1
      (sampleTask ETaskStatus.Callback_On_Update) rfl,
   (status_follows_transition_graph Nat).2.2.2.1
      (sampleTask ETaskStatus.Completed) (by decide)⟩

/-- C3: effects of one worker execution of a `Pending` task.  If the process
succeeds and callback-on-update is clear, the callback runs and on its
success the task ends `Completed`, with the result storage released and the
lock flag dropped.  If callback-on-update is set, the task ends
`Callback_On_Update` with the computed result intact and the lock flag kept.
Any failure of the process or the immediate callback stores the failure's
text, ends the task `Error`, drops the lock flag, and does NOT release the
result storage. -/
theorem worker_execution_protocol (T : Type) (t : Asynch_Task_Job T)
    (hpend : t.mStatus = ETaskStatus.Pending) :
    (∀ t2, completeProcess (doWorkEntry t) = .ok t2 →
      (t.mCallbackOnUpdate = false →
        (completeCallback t2 = .ok () →
          (doWorkStep t).mStatus = ETaskStatus.Completed ∧
          (doWorkStep t).mResult = none ∧
          (doWorkStep t).mLockValues = false) ∧
        (∀ e, completeCallback t2 = .error e →
          (doWorkStep t).mErrorMsg = e.storedMessage ∧
          (doWorkStep t).mStatus = ETaskStatus.Error ∧
          (doWorkStep t).mLockValues = false ∧
          (doWorkStep t).mResult = t2.mResult ∧
          t2.mResult.isSome = true)) ∧
      (t.mCallbackOnUpdate = true →
        (doWorkStep t).mStatus = ETaskStatus.Callback_On_Update ∧
        (doWorkStep t).mResult = t2.mResult ∧
        t2.mResult.isSome = true ∧
        (doWorkStep t).mLockValues = t.mLockValues)) ∧
    (∀ e, completeProcess (doWorkEntry t) = .error e →
      (doWorkStep t).mErrorMsg = e.storedMessage ∧
      (doWorkStep t).mStatus = ETaskStatus.Error ∧
      (doWorkStep t).mLockValues = false ∧
      (doWorkStep t).mResult = t.mResult) := by
  constructor
  · intro t2 hok
    obtain ⟨r, hshape⟩ := completeProcess_ok_shape (doWorkEntry t) t2 hok
    have hbu : t2.mCallbackOnUpdate = t.mCallbackOnUpdate := by rw [hshape]; rfl
    have hres : t2.mResult = some r := by rw [hshape]
    have h3 : doWorkStep t = doWorkTry (doWorkEntry t) := rfl
    constructor
    · intro hflag
      have hbu2 : t2.mCallbackOnUpdate = false := by rw [hbu, hflag]
      constructor
      · intro hcb
        rw [h3, doWorkTry_immediate_ok (doWorkEntry t) t2 hok hbu2 hcb]
        exact ⟨rfl, rfl, rfl⟩
      · intro e hcb
        rw [h3, doWorkTry_immediate_error (doWorkEntry t) t2 e hok hbu2 hcb]
        exact ⟨rfl, rfl, rfl, rfl, by rw [hres]; rfl⟩
    · intro hflag
      have hbu2 : t2.mCallbackOnUpdate = true := by rw [hbu, hflag]
      rw [h3, doWorkTry_defer (doWorkEntry t) t2 hok hbu2]
      refine ⟨rfl, rfl, by rw [hres]; rfl, ?_⟩
      show t2.mLockValues = t.mLockValues
      rw [hshape]; rfl
  · intro e herr
    have h3 : doWorkStep t = doWorkTry (doWorkEntry t) := rfl
    rw [h3, doWorkTry_process_error (doWorkEntry t) e herr]
    exact ⟨rfl, rfl, rfl, rfl⟩

/-- A concrete `Pending` task whose process succeeds with 7 and whose
callback succeeds, run immediately. -/
def okTask : Asynch_Task_Job Nat :=
  { mID := 4
    mStatus := ETaskStatus.Pending
    mPriority := Low_Priority
    mCallbackOnUpdate := false
    mLockValues := true
    mErrorMsg := ""
    mResult := none
    mProcess := some (fun _ => Except.ok 7)
    mCallback := some (fun _ => Except.ok ()) }

/-- A concrete `Pending` task whose process throws a string. -/
def throwTask : Asynch_Task_Job Nat :=
  { mID := 5
    mStatus := ETaskStatus.Pending
    mPriority := Low_Priority
    mCallbackOnUpdate := false
    mLockValues := true
    mErrorMsg := ""
    mResult := none
    mProcess := some (fun _ => Except.error (CppFailure.strE "bad"))
    mCallback := none }

/-- A concrete `Pending` task with callback-on-update set. -/
def deferTask : Asynch_Task_Job Nat :=
  { mID := 6
    mStatus := ETaskStatus.Pending
    mPriority := Low_Priority
    mCallbackOnUpdate := true
    mLockValues := true
    mErrorMsg := ""
    mResult := none
    mProcess := some (fun _ => Except.ok 7)
    mCallback := some (fun _ => Except.ok ()) }

/-- The task `okTask` as left by a successful `completeProcess`. -/
def okTaskAfterProcess : Asynch_Task_Job Nat :=
  { doWorkEntry okTask with mResult := some 7 }

/-- The task `deferTask` as left by a successful `completeProcess`. -/
def deferTaskAfterProcess : Asynch_Task_Job Nat :=
  { doWorkEntry deferTask with mResult := some 7 }

/-- Witness for C3: the three branches evaluated on concrete tasks — a
successful immediate run completes and releases the result, a deferred run
parks the task with its result, and a throwing process records the message
and keeps the (empty) result storage untouched. -/
theorem worker_execution_protocol_witness :
    ((doWorkStep okTask).mStatus = ETaskStatus.Completed ∧
      (doWorkStep okTask).mResult = none ∧
      (doWorkStep okTask).mLockValues = false) ∧
    ((doWorkStep deferTask).mStatus = ETaskStatus.Callback_On_Update ∧
      (doWorkStep deferTask).mResult = deferTaskAfterProcess.mResult ∧
      deferTaskAfterProcess.mResult.isSome = true ∧
      (doWorkStep deferTask).mLockValues = deferTask.mLockValues) ∧
    ((doWorkStep throwTask).mErrorMsg =
        (CppFailure.strE "bad").storedMessage ∧
      (doWorkStep throwTask).mStatus = ETaskStatus.Error ∧
      (doWorkStep throwTask).mLockValues = false ∧
      (doWorkStep throwTask).mResult = throwTask.mResult) :=
  ⟨((((worker_execution_protocol Nat okTask rfl).1
      okTaskAfterProcess rfl).1 rfl).1) rfl,
   ((worker_execution_protocol Nat deferTask rfl).1
      deferTaskAfterProcess rfl).2 rfl,
   (worker_execution_protocol Nat throwTask rfl).2
      (CppFailure.strE "bad") rfl⟩

/-- The drain loop consumes up to its cap from the front of the (reversed)
vector it is given, processing each consumed task with `pollTask`. -/
theorem updateDrain_eq (k : Nat) (l : List (Asynch_Task_Job T)) :
    updateDrain k l = (l.drop k, (l.take k).map pollTask) := by
  induction k generalizing l with
  | zero => simp [updateDrain]
  | succ n ih =>
    cases l with
    | nil => simp [updateDrain]
    | cons t rest => simp [updateDrain, ih]

/-- A deferred task with the given id and priority, parked in
`Callback_On_Update` with a stored result and no callback. -/
def cbuTask (i : taskID) (p : ETaskPriority) : Asynch_Task_Job Nat :=
  { mID := i
    mStatus := ETaskStatus.Callback_On_Update
    mPriority := p
    mCallbackOnUpdate := true
    mLockValues := true
    mErrorMsg := ""
    mResult := some 5
    mProcess := some (fun _ => Except.ok 5)
    mCallback := none }

/-- A manager whose deferred-callback vector received, in this order, task 1
(High priority) and then task 2 (Low priority), with the per-update cap set
to one. -/
def mgrC4 : TaskManager Nat :=
  organiserHarvest
    (organiserHarvest (setMaxCallbacks (TaskManager.init Nat 1) 1)
      (cbuTask 1 High_Priority))
    (cbuTask 2 Low_Priority)

/-- C4 counterexample: task 2 (Low priority) was queued into the deferred
collection after task 1 (High priority), yet `update` with a cap of one
drains task 1 — the highest-priority entry at the back of the
ascending-sorted vector — and not the most recently queued task 2, which
remains in the collection. -/
theorem update_not_most_recent_first_counterexample :
    ((update mgrC4).2.map (fun t => t.mID) = [1]) ∧
    ¬ ((update mgrC4).2.map (fun t => t.mID) = [2]) ∧
    ((update mgrC4).1.mToCallOnUpdate.map (fun t => t.mID) = [2]) := by
  refine ⟨rfl, by decide, rfl⟩

/-- C4 amended: each `update` call removes and processes at most
`mMaxCallbacksOnUpdate` entries from the deferred-callback collection,
taking entries from the back of the (ascending-priority-sorted) vector —
highest priority first, not most-recently-queued first; each drained task
has its callback executed, ends `Completed` on success or `Error` with the
failure's text on failure, has its result storage released and its lock
flag cleared; entries beyond the cap (the front of the vector) remain. -/
theorem update_drains_back_of_collection (T : Type) (m : TaskManager T) :
    ((update m).1.mToCallOnUpdate =
      m.mToCallOnUpdate.take
        (m.mToCallOnUpdate.length - m.mMaxCallbacksOnUpdate)) ∧
    ((update m).2 =
      ((m.mToCallOnUpdate.drop
        (m.mToCallOnUpdate.length - m.mMaxCallbacksOnUpdate)).reverse).map
        pollTask) ∧
    ((update m).2.length =
      min m.mMaxCallbacksOnUpdate m.mToCallOnUpdate.length) ∧
    (∀ u : Asynch_Task_Job T, completeCallback u = Except.ok () →
      (pollTask u).mStatus = ETaskStatus.Completed ∧
      (pollTask u).mResult = none ∧ (pollTask u).mLockValues = false) ∧
    (∀ (u : Asynch_Task_Job T) (e : CppFailure),
      completeCallback u = .error e →
      (pollTask u).mStatus = ETaskStatus.Error ∧
      (pollTask u).mErrorMsg = e.storedMessage ∧
      (pollTask u).mResult = none ∧ (pollTask u).mLockValues = false) := by
  refine ⟨?_, ?_, ?_, fun u hc => ?_, fun u e hc => ?_⟩
  · show (updateDrain m.mMaxCallbacksOnUpdate
      m.mToCallOnUpdate.reverse).1.reverse = _
    rw [updateDrain_eq, List.drop_reverse, List.reverse_reverse]
  · show (updateDrain m.mMaxCallbacksOnUpdate
      m.mToCallOnUpdate.reverse).2 = _
    rw [updateDrain_eq, List.take_reverse]
  · show (updateDrain m.mMaxCallbacksOnUpdate
      m.mToCallOnUpdate.reverse).2.length = _
    rw [updateDrain_eq]
    show ((m.mToCallOnUpdate.reverse.take
      m.mMaxCallbacksOnUpdate).map pollTask).length = _
    rw [List.length_map, List.length_take, List.length_reverse]
  · rw [pollTask_cb_ok u hc]
    exact ⟨rfl, rfl, rfl⟩
  · rw [pollTask_cb_error u e hc]
    exact ⟨rfl, rfl, rfl, rfl⟩

/-- Witness for the amended C4: a concrete drained task whose callback
succeeds ends `Completed`, unlocked, with its result released. -/
theorem update_drains_back_of_collection_witness :
    (pollTask (cbuTask 1 High_Priority)).mStatus = ETaskStatus.Completed ∧
    (pollTask (cbuTask 1 High_Priority)).mResult = none ∧
    (pollTask (cbuTask 1 High_Priority)).mLockValues = false :=
  (update_drains_back_of_collection Nat mgrC4).2.2.2.1
    (cbuTask 1 High_Priority) rfl

/-- C8 counterexample: the manager is created with a worker inactive timeout
of 2000 ms and sleep length of 100 ms (the values current when the workers
are constructed); after `setWorkerTimeout 5000` / `setWorkerSleep 7` a
worker's reads — which go through the `const` reference a
`ReadOnlyProperty` stores — yield the new values, not the
construction-time ones. -/
theorem worker_tunables_not_snapshot_counterexample :
    (TaskManager.init Nat 5).mWorkerInactiveTimeout = 2000 ∧
    Worker.readInactiveTimeout
      (setWorkerTimeout (TaskManager.init Nat 5) 5000) = 5000 ∧
    ¬ Worker.readInactiveTimeout
      (setWorkerTimeout (TaskManager.init Nat 5) 5000) = 2000 ∧
    (TaskManager.init Nat 5).mWorkerSleepLength = 100 ∧
    Worker.readSleepLength (setWorkerSleep (TaskManager.init Nat 5) 7) = 7 ∧
    ¬ Worker.readSleepLength (setWorkerSleep (TaskManager.init Nat 5) 7)
      = 100 := by
  decide

/-- C8 amended: a Worker's tunables are `const` references bound to the
scheduler's fields (`ReadOnlyProperty` stores a `const T&`), not
construction-time snapshots: every read yields the scheduler's current
value, so `setWorkerTimeout`/`setWorkerSleep` affect the subsequent reads
of every worker, including those already running. -/
theorem worker_tunables_live_reference (T : Type) :
    (∀ (m : TaskManager T) (v : Nat),
      Worker.readInactiveTimeout (setWorkerTimeout m v) = v) ∧
    (∀ (m : TaskManager T) (v : Nat),
      Worker.readSleepLength (setWorkerSleep m v) = v) ∧
    (∀ m : TaskManager T,
      Worker.readInactiveTimeout m = m.mWorkerInactiveTimeout) ∧
    (∀ m : TaskManager T,
      Worker.readSleepLength m = m.mWorkerSleepLength) :=
  ⟨fun _ _ => rfl, fun _ _ => rfl, fun _ => rfl, fun _ => rfl⟩

/-- A sequence of `createTask` calls on one manager: the list of stamped ids
in creation order, with the final manager state. -/
def createMany (T : Type) : Nat → TaskManager T → List taskID × TaskManager T
  | 0, m => ([], m)
  | n + 1, m =>
    ((createTask m).1.mID :: (createMany T n (createTask m).2).1,
     (createMany T n (createTask m).2).2)

/-- Below the 64-bit wrap, the ids stamped by successive `createTask` calls
are the consecutive integers starting one past the current counter. -/
theorem createMany_ids (T : Type) (n : Nat) : ∀ m : TaskManager T,
    m.mNextID + n < UINT64_MOD →
    (createMany T n m).1 = List.range' (m.mNextID + 1) n ∧
    (createMany T n m).2.mNextID = m.mNextID + n := by
  induction n with
  | zero => exact fun m _ => ⟨rfl, rfl⟩
  | succ k ih =>
    intro m h
    have hlt : m.mNextID + 1 < UINT64_MOD :=
      Nat.lt_of_le_of_lt
        (Nat.add_le_add_left (Nat.succ_le_succ (Nat.zero_le k)) m.mNextID) h
    have hid : (createTask m).1.mID = m.mNextID + 1 := by
      show (m.mNextID + 1) % UINT64_MOD = m.mNextID + 1
      exact Nat.mod_eq_of_lt hlt
    have hnext : (createTask m).2.mNextID = m.mNextID + 1 := hid
    have hsum : m.mNextID + 1 + k = m.mNextID + (k + 1) := by
      rw [Nat.add_assoc, Nat.add_comm 1 k]
    obtain ⟨h1, h2⟩ := ih (createTask m).2 (by rw [hnext, hsum]; exact h)
    constructor
    · show (createTask m).1.mID :: (createMany T k (createTask m).2).1 = _
      rw [hid, h1, hnext, List.range'_succ]
    · show (createMany T k (createTask m).2).2.mNextID = m.mNextID + (k + 1)
      rw [h2, hnext, hsum]

/-- The list of consecutive integers is strictly increasing. -/
theorem chain'_lt_range' (s n : Nat) :
    List.Chain' (fun a b => a < b) (List.range' s n) := by
  induction n generalizing s with
  | zero => exact List.chain'_nil
  | succ k ih =>
    rw [List.range'_succ]
    cases k with
    | zero => exact List.chain'_singleton s
    | succ j =>
      rw [List.range'_succ]
      exact List.chain'_cons.mpr
        ⟨by omega, by rw [← List.range'_succ]; exact ih (s + 1)⟩

/-- The worker's execution of a task never changes its id. -/
theorem doWorkStep_mID (t : Asynch_Task_Job T) : (doWorkStep t).mID = t.mID := by
  have h3 : doWorkStep t = doWorkTry (doWorkEntry t) := rfl
  cases hp : completeProcess (doWorkEntry t) with
  | error e => rw [h3, doWorkTry_process_error _ e hp]; rfl
  | ok t2 =>
    obtain ⟨r, hshape⟩ := completeProcess_ok_shape _ t2 hp
    have hid2 : t2.mID = t.mID := by rw [hshape]; rfl
    cases hb : t2.mCallbackOnUpdate with
    | true => rw [h3, doWorkTry_defer _ t2 hp hb]; exact hid2
    | false =>
      cases hc : completeCallback t2 with
      | ok u =>
        cases u
        rw [h3, doWorkTry_immediate_ok _ t2 hp hb hc]
        exact hid2
      | error e =>
        rw [h3, doWorkTry_immediate_error _ t2 e hp hb hc]
        exact hid2

/-- The update-loop body never changes a task's id. -/
theorem pollTask_mID (t : Asynch_Task_Job T) : (pollTask t).mID = t.mID := by
  cases hc : completeCallback t with
  | ok u => cases u; rw [pollTask_cb_ok t hc]; rfl
  | error e => rw [pollTask_cb_error t e hc]; rfl

/-- Submission never changes a task's id. -/
theorem addTask_mID (m : TaskManager T) (t : Asynch_Task_Job T) :
    (addTask m t).pTask.mID = t.mID := by
  unfold addTask
  by_cases h1 : t.mStatus = ETaskStatus.Setup ∨ t.mStatus = ETaskStatus.Completed
  · rw [if_pos h1]
    by_cases h2 : t.mProcess.isNone = true
    · rw [if_pos h2]
    · rw [if_neg h2]
  · rw [if_neg h1]

/-- C9: `createTask` returns a task with status `Setup`, priority
`Low_Priority`, the lock flag down, an empty error message, and an id
stamped with the incremented counter (mod 2^64); across a sequence of
creations on one scheduler instance (which always serves fewer than 2^64
creations) the stamped ids are the consecutive integers 1, 2, …, hence
strictly increasing and never the constructor's placeholder 0; and no later
operation (submission, worker execution, deferred poll, flagged setters)
ever changes a task's id. -/
theorem createTask_initial_state_and_ids (T : Type) :
    (∀ m : TaskManager T,
      (createTask m).1.mStatus = ETaskStatus.Setup ∧
      (createTask m).1.mPriority = Low_Priority ∧
      (createTask m).1.mLockValues = false ∧
      (createTask m).1.mErrorMsg = "" ∧
      (createTask m).1.mID = (m.mNextID + 1) % UINT64_MOD ∧
      (createTask m).2.mNextID = (createTask m).1.mID) ∧
    (∀ w n : Nat, n < UINT64_MOD →
      (createMany T n (TaskManager.init T w)).1 = List.range' 1 n ∧
      List.Chain' (fun a b => a < b)
        (createMany T n (TaskManager.init T w)).1 ∧
      (∀ i ∈ (createMany T n (TaskManager.init T w)).1, i ≠ 0)) ∧
    (∀ (m : TaskManager T) (t : Asynch_Task_Job T),
      (addTask m t).pTask.mID = t.mID) ∧
    (∀ t : Asynch_Task_Job T, (doWorkStep t).mID = t.mID) ∧
    (∀ t : Asynch_Task_Job T, (pollTask t).mID = t.mID) ∧
    (∀ (t : Asynch_Task_Job T) p, (setPriority t p).mID = t.mID) ∧
    (∀ (t : Asynch_Task_Job T) b, (setCallbackOnUpdate t b).mID = t.mID) ∧
    (∀ (t : Asynch_Task_Job T) f, (setProcess t f).mID = t.mID) ∧
    (∀ (t : Asynch_Task_Job T) f, (setCallback t f).mID = t.mID) := by
  refine ⟨fun m => ⟨rfl, rfl, rfl, rfl, rfl, rfl⟩, fun w n hn => ?_,
    addTask_mID, doWorkStep_mID, pollTask_mID,
    fun t p => ?_, fun t b => ?_, fun t f => ?_, fun t f => ?_⟩
  · have hinit : (TaskManager.init T w).mNextID = 0 := rfl
    obtain ⟨h1, _⟩ := createMany_ids T n (TaskManager.init T w)
      (by rw [hinit, Nat.zero_add]; exact hn)
    rw [hinit] at h1
    refine ⟨h1, by rw [h1]; exact chain'_lt_range' 1 n, fun i hi => ?_⟩
    rw [h1] at hi
    exact Nat.one_le_iff_ne_zero.mp (List.mem_range'_1.mp hi).1
  · unfold setPriority; split <;> rfl
  · unfold setCallbackOnUpdate; split <;> rfl
  · unfold setProcess; split <;> rfl
  · unfold setCallback; split <;> rfl

/-- Witness for C9: three creations on a fresh manager stamp ids 1, 2, 3 —
strictly increasing and nonzero. -/
theorem createTask_initial_state_and_ids_witness :
    (createMany Nat 3 (TaskManager.init Nat 5)).1 = List.range' 1 3 ∧
    List.Chain' (fun a b => a < b)
      (createMany Nat 3 (TaskManager.init Nat 5)).1 :=
  ⟨((createTask_initial_state_and_ids Nat).2.1 5 3 (by decide)).1,
   ((createTask_initial_state_and_ids Nat).2.1 5 3 (by decide)).2.1⟩

/-- Outcome of invoking a static `TaskManager` operation through the global
`mInstance` pointer: either the body runs, or the call dereferences a null
`mInstance`. -/
inductive CallResult (β : Type) : Type
  | ok (val : β)
  | nullDeref

/-- `TaskManager::update` starts with `mInstance->mTaskLock.lock()`: it
dereferences the singleton unconditionally. -/
def updateGlobal (inst : Option (TaskManager T)) :
    CallResult (TaskManager T × List (Asynch_Task_Job T)) :=
  match inst with
  | none => .nullDeref
  | some m => .ok (update m)

/-- `TaskManager::createTask` stamps `++mInstance->mNextID`
unconditionally. -/
def createTaskGlobal (inst : Option (TaskManager T)) :
    CallResult (Asynch_Task_Job T × TaskManager T) :=
  match inst with
  | none => .nullDeref
  | some m => .ok (createTask m)

/-- `TaskManager::setWorkerTimeout` writes through `mInstance`
unconditionally. -/
def setWorkerTimeoutGlobal (inst : Option (TaskManager T)) (v : Nat) :
    CallResult (TaskManager T) :=
  match inst with
  | none => .nullDeref
  | some m => .ok (setWorkerTimeout m v)

/-- `TaskManager::setWorkerSleep` writes through `mInstance`
unconditionally. -/
def setWorkerSleepGlobal (inst : Option (TaskManager T)) (v : Nat) :
    CallResult (TaskManager T) :=
  match inst with
  | none => .nullDeref
  | some m => .ok (setWorkerSleep m v)

/-- `TaskManager::setMaxCallbacks` writes through `mInstance`
unconditionally. -/
def setMaxCallbacksGlobal (inst : Option (TaskManager T)) (v : Nat) :
    CallResult (TaskManager T) :=
  match inst with
  | none => .nullDeref
  | some m => .ok (setMaxCallbacks m v)

/-- `TaskManager::addTask` validates the handle, the status and the process
before its first touch of `mInstance` (`mInstance->mTaskLock.lock()`), so
every rejection path completes without the singleton. -/
def addTaskGlobal (inst : Option (TaskManager T))
    (h : Option (Asynch_Task_Job T)) :
    CallResult (Bool × Option (Asynch_Task_Job T) × Option (TaskManager T)) :=
  match h with
  | none => .ok (false, none, inst)
  | some t =>
    if t.mStatus = ETaskStatus.Setup ∨ t.mStatus = ETaskStatus.Completed then
      if t.mProcess.isNone then .ok (false, some t, inst)
      else
        match inst with
        | none => .nullDeref
        | some m =>
          .ok ((addTask m t).returned, some (addTask m t).pTask,
            some (addTask m t).mgr)
    else .ok (false, some t, inst)

/-- `TaskManager::destroy` checks `if (mInstance)`: with no instance it is a
harmless no-op; otherwise it tears the singleton down and nulls it. -/
def destroyGlobal (inst : Option (TaskManager T)) : Option (TaskManager T) :=
  match inst with
  | none => none
  | some _ => none

/-- C10 counterexample: calling submit before `create` (singleton null) with
a null handle, with a task in `Error` state, or with a task lacking a
process, returns `false` without dereferencing the null singleton — so
`addTask` does not dereference the instance unconditionally. -/
theorem null_instance_counterexample :
    addTaskGlobal (T := Nat) none none = .ok (false, none, none) ∧
    addTaskGlobal (T := Nat) none (some errorTask) =
      .ok (false, some errorTask, none) ∧
    addTaskGlobal (T := Nat) none (some noProcessTask) =
      .ok (false, some noProcessTask, none) :=
  ⟨rfl, rfl, rfl⟩

/-- C10 amended: `update`, `createTask`, `setWorkerTimeout`,
`setWorkerSleep` and `setMaxCallbacks` dereference the global singleton
unconditionally, so calling them before a successful `create` (or after
`destroy`) dereferences a null pointer; `addTask` dereferences it exactly
when the task passes validation (non-null handle, status `Setup` or
`Completed`, process set) — its rejection paths return `false` without
touching the instance; only `destroy` checks the instance and is a harmless
no-op when it is missing. -/
theorem globals_null_instance_behavior (T : Type) :
    (updateGlobal (T := T) none = .nullDeref) ∧
    (createTaskGlobal (T := T) none = .nullDeref) ∧
    (∀ v, setWorkerTimeoutGlobal (T := T) none v = .nullDeref) ∧
    (∀ v, setWorkerSleepGlobal (T := T) none v = .nullDeref) ∧
    (∀ v, setMaxCallbacksGlobal (T := T) none v = .nullDeref) ∧
    (∀ t : Asynch_Task_Job T,
      (t.mStatus = ETaskStatus.Setup ∨ t.mStatus = ETaskStatus.Completed) →
      t.mProcess.isNone = false →
      addTaskGlobal none (some t) = .nullDeref) ∧
    (∀ h : Option (Asynch_Task_Job T),
      addTaskGlobal none h = .nullDeref →
      ∃ t, h = some t ∧
        (t.mStatus = ETaskStatus.Setup ∨ t.mStatus = ETaskStatus.Completed) ∧
        t.mProcess.isNone = false) ∧
    (destroyGlobal (T := T) none = none) ∧
    (∀ m : TaskManager T, destroyGlobal (some m) = none) := by
  refine ⟨rfl, rfl, fun v => rfl, fun v => rfl, fun v => rfl,
    fun t hst hp => ?_, fun h hder => ?_, rfl, fun m => rfl⟩
  · unfold addTaskGlobal
    dsimp only
    rw [if_pos hst, if_neg (by rw [hp]; exact Bool.false_ne_true)]
  · cases h with
    | none => cases hder
    | some t =>
      unfold addTaskGlobal at hder
      dsimp only at hder
      by_cases h1 : t.mStatus = ETaskStatus.Setup ∨
          t.mStatus = ETaskStatus.Completed
      · rw [if_pos h1] at hder
        by_cases h2 : t.mProcess.isNone = true
        · rw [if_pos h2] at hder; cases hder
        · exact ⟨t, rfl, h1, Bool.eq_false_iff.mpr h2⟩
      · rw [if_neg h1] at hder; cases hder

/-- Witness for the amended C10: before `create`, submitting a valid task
does dereference the null singleton, and a tunable setter always does. -/
theorem globals_null_instance_behavior_witness :
    addTaskGlobal (T := Nat) none (some (sampleTask ETaskStatus.Setup)) =
      CallResult.nullDeref ∧
    setWorkerTimeoutGlobal (T := Nat) none 5 = CallResult.nullDeref :=
  ⟨(globals_null_instance_behavior Nat).2.2.2.2.2.1
      (sampleTask ETaskStatus.Setup) (Or.inl rfl) rfl,
   (globals_null_instance_behavior Nat).2.2.1 5⟩

end AsynchTasks
